import Mathlib

/-!
Verification of the toolium driver-configuration and Jira-reporting modules
(`toolium/config_driver.py`, `toolium/jira.py`) against their specification.

Python dictionaries, lists, strings, integers, booleans and `None` are
modelled by the inductive type `PValue`; dictionaries are association lists
in insertion order (Python 3.7+ dicts are ordered, keys unique).
-/

namespace Toolium

/-- Model of a Python value as it occurs in capability dictionaries and
configuration properties: `None`, booleans, integers, strings, lists and
string-keyed dictionaries (association lists, unique keys, insertion order). -/
inductive PValue where
  | none : PValue
  | bool : Bool → PValue
  | int : Int → PValue
  | str : String → PValue
  | list : List PValue → PValue
  | dict : List (String × PValue) → PValue
deriving Repr

/-- Python `d[k]` / `d.get(k)` on an association-list dictionary:
the value at the first matching key. -/
def getKey {α : Type} : List (String × α) → String → Option α
  | [], _ => Option.none
  | (k2, v) :: rest, k => if k2 = k then some v else getKey rest k

/-- Python `d[k] = v` on an association-list dictionary: replace the value at
an existing key in place, otherwise append the new pair at the end. -/
def setKey {α : Type} : List (String × α) → String → α → List (String × α)
  | [], k, v => [(k, v)]
  | (k2, v2) :: rest, k, v =>
    if k2 = k then (k, v) :: rest else (k2, v2) :: setKey rest k v

/-- Number of entries of an association list carrying a given key. -/
def countKey {α : Type} (d : List (String × α)) (k : String) : Nat :=
  (d.filter (fun p => p.1 == k)).length

theorem getKey_setKey_self {α : Type} (d : List (String × α)) (k : String) (v : α) :
    getKey (setKey d k v) k = some v := by
  induction d with
  | nil => simp [setKey, getKey]
  | cons p rest ih =>
    obtain ⟨k2, v2⟩ := p
    by_cases h : k2 = k
    · simp [setKey, getKey, h]
    · simp [setKey, getKey, h, ih]

theorem getKey_setKey_ne {α : Type} (d : List (String × α)) (k k2 : String) (v : α)
    (h : k2 ≠ k) : getKey (setKey d k v) k2 = getKey d k2 := by
  induction d with
  | nil => simp [setKey, getKey, Ne.symm h]
  | cons p rest ih =>
    obtain ⟨k3, v3⟩ := p
    by_cases h3 : k3 = k
    · subst h3
      simp [setKey, getKey, Ne.symm h]
    · simp only [setKey, if_neg h3]
      by_cases h4 : k3 = k2
      · simp [getKey, if_pos h4]
      · simp [getKey, if_neg h4, ih]

theorem countKey_setKey_absent {α : Type} (d : List (String × α)) (k : String) (v : α)
    (h : getKey d k = Option.none) : countKey (setKey d k v) k = countKey d k + 1 := by
  induction d with
  | nil => simp [setKey, countKey]
  | cons p rest ih =>
    obtain ⟨k2, v2⟩ := p
    by_cases h2 : k2 = k
    · simp [getKey, h2] at h
    · simp [getKey, h2] at h
      simp [setKey, countKey, h2] at ih ⊢
      exact ih h

theorem countKey_setKey_present {α : Type} (d : List (String × α)) (k : String) (v : α)
    (h : countKey d k = 1) : countKey (setKey d k v) k = 1 := by
  induction d with
  | nil => simp [countKey] at h
  | cons p rest ih =>
    obtain ⟨k2, v2⟩ := p
    by_cases h2 : k2 = k
    · subst h2
      simpa [countKey, setKey] using h
    · simp [countKey, setKey, h2] at h ⊢
      exact ih h

theorem countKey_eq_zero_of_getKey_none {α : Type} (d : List (String × α)) (k : String)
    (h : getKey d k = Option.none) : countKey d k = 0 := by
  induction d with
  | nil => simp [countKey]
  | cons p rest ih =>
    obtain ⟨k2, v2⟩ := p
    by_cases h2 : k2 = k
    · simp [getKey, h2] at h
    · simp [getKey, h2] at h
      simp [countKey, h2] at ih ⊢
      exact ih h

/-- Whether a `PValue` is a Python `dict` (for `isinstance(value, dict)`). -/
def PValue.isDict : PValue → Bool
  | .dict _ => true
  | _ => false

mutual

/-- One iteration body of `ConfigDriver._update_dict`
(`config_driver.py` lines 412-414): execute
`initial[key] = self._update_dict(initial.get(key, {}), value)
if isinstance(value, dict) else value` for a single `key`/`value` pair.
When `initial` is not a dict, `initial.get` raises `AttributeError`
(dict-valued case) and item assignment raises `TypeError` (leaf case). -/
def mergeInto (initial : PValue) (k : String) (v : PValue) : Except String PValue :=
  match v with
  | .dict d =>
    match initial with
    | .dict d0 =>
      match mergeEntries ((getKey d0 k).getD (.dict [])) d Option.none with
      | .ok merged => .ok (.dict (setKey d0 k merged))
      | .error e => .error e
    | _ => .error ("AttributeError: object has no attribute get")
  | _ =>
    match initial with
    | .dict d0 => .ok (.dict (setKey d0 k v))
    | _ => .error ("TypeError: object does not support item assignment")
termination_by sizeOf v

/-- `ConfigDriver._update_dict` (`config_driver.py` lines 404-415), iterating
over the entries of the `update` dict in order; entries are skipped when an
`initial_key` restriction is given and the key differs. Recursive calls pass
`initial_key = None`. -/
def mergeEntries (initial : PValue) (update : List (String × PValue))
    (initialKey : Option String) : Except String PValue :=
  match update with
  | [] => .ok initial
  | (k, v) :: rest =>
    if initialKey = Option.none ∨ initialKey = some k then
      match mergeInto initial k v with
      | .ok initial2 => mergeEntries initial2 rest initialKey
      | .error e => .error e
    else
      mergeEntries initial rest initialKey
termination_by sizeOf update

end

/-- `ConfigDriver._update_dict(initial, update, initial_key)` where `update`
is given by its entry list. -/
def updateDict (initial : PValue) (update : List (String × PValue))
    (initialKey : Option String) : Except String PValue :=
  mergeEntries initial update initialKey

/-- Merging `{"a": {"x": 1}}` and then `{"a": {"y": 2}}` with `_update_dict`. -/
def mergeXthenY (base : PValue) : Except String PValue :=
  (updateDict base [(("a"), .dict [(("x"), .int 1)])] Option.none).bind
    (fun m => updateDict m [(("a"), .dict [(("y"), .int 2)])] Option.none)

/-- Claim C1, counterexample: the claim quantifies over every base dictionary,
but for the base `{"a": 7}` (key `"a"` bound to a non-dict value) merging the
nested override `{"a": {"x": 1}}` raises a `TypeError` inside `_update_dict`
instead of yielding a dictionary whose key `"a"` maps to `{"x": 1, "y": 2}`. -/
theorem claim_C1_counterexample :
    mergeXthenY (.dict [(("a"), .int 7)])
      = .error ("TypeError: object does not support item assignment") := by
  simp [mergeXthenY, updateDict, mergeEntries, mergeInto, getKey, Except.bind]

theorem mergeEntries_single (initial : PValue) (k : String) (v : PValue)
    (ik : Option String) (hik : ik = Option.none ∨ ik = some k) :
    mergeEntries initial [(k, v)] ik = mergeInto initial k v := by
  rcases hik with h | h <;> subst h <;>
    cases hm : mergeInto initial k v <;> simp [mergeEntries, hm]

theorem mergeInto_leaf_dict (d0 : List (String × PValue)) (k : String) (v : PValue)
    (hv : v.isDict = false) : mergeInto (.dict d0) k v = .ok (.dict (setKey d0 k v)) := by
  cases v <;> simp [PValue.isDict] at hv <;> simp [mergeInto]

theorem mergeInto_dict_dict (d0 u : List (String × PValue)) (k : String) (m : PValue)
    (h : mergeEntries ((getKey d0 k).getD (.dict [])) u Option.none = .ok m) :
    mergeInto (.dict d0) k (.dict u) = .ok (.dict (setKey d0 k m)) := by
  simp [mergeInto, h]

/-- Claim C1 as amended: for every base dictionary in which key `"a"` is
absent or bound to a dictionary, merging `{"a": {"x": 1}}` and then
`{"a": {"y": 2}}` with `_update_dict` succeeds and yields a dictionary whose
key `"a"` maps to a dictionary containing `"x" : 1` and `"y" : 2`
(recursive merge at mapping level); and for every key and every pair of
non-dict values, merging the first and then the second leaves the later
value at the key (last-wins at leaf level). -/
theorem claim_C1_amended :
    (∀ d0 : List (String × PValue),
      (getKey d0 ("a") = Option.none ∨ ∃ d, getKey d0 ("a") = some (.dict d)) →
      ∃ res d2, mergeXthenY (.dict d0) = .ok (.dict res) ∧
        getKey res ("a") = some (.dict d2) ∧
        getKey d2 ("x") = some (.int 1) ∧ getKey d2 ("y") = some (.int 2)) ∧
    (∀ (d0 : List (String × PValue)) (k : String) (v1 v2 : PValue),
      v1.isDict = false → v2.isDict = false →
      ∃ res,
        (updateDict (.dict d0) [(k, v1)] Option.none).bind
          (fun m => updateDict m [(k, v2)] Option.none) = .ok (.dict res) ∧
        getKey res k = some v2) := by
  constructor
  · intro d0 h
    have hg : ∃ dI, (getKey d0 ("a")).getD (.dict []) = .dict dI := by
      rcases h with h | ⟨d, h⟩
      · exact ⟨[], by rw [h]; rfl⟩
      · exact ⟨d, by rw [h]; rfl⟩
    obtain ⟨dI, hg⟩ := hg
    have inner1 : mergeEntries (.dict dI) [(("x"), PValue.int 1)] Option.none
        = .ok (.dict (setKey dI ("x") (.int 1))) := by
      rw [mergeEntries_single _ _ _ _ (Or.inl rfl), mergeInto_leaf_dict dI ("x") (.int 1) rfl]
    have step1 : updateDict (.dict d0) [(("a"), .dict [(("x"), PValue.int 1)])] Option.none
        = .ok (.dict (setKey d0 ("a") (.dict (setKey dI ("x") (.int 1))))) := by
      rw [updateDict, mergeEntries_single _ _ _ _ (Or.inl rfl),
        mergeInto_dict_dict _ _ _ _ (by rw [hg]; exact inner1)]
    have inner2 : mergeEntries (.dict (setKey dI ("x") (.int 1)))
        [(("y"), PValue.int 2)] Option.none
        = .ok (.dict (setKey (setKey dI ("x") (.int 1)) ("y") (.int 2))) := by
      rw [mergeEntries_single _ _ _ _ (Or.inl rfl),
        mergeInto_leaf_dict (setKey dI ("x") (.int 1)) ("y") (.int 2) rfl]
    have hg2 : (getKey (setKey d0 ("a") (.dict (setKey dI ("x") (.int 1)))) ("a")).getD
        (.dict []) = .dict (setKey dI ("x") (.int 1)) := by
      rw [getKey_setKey_self]
      rfl
    have step2 : updateDict (.dict (setKey d0 ("a") (.dict (setKey dI ("x") (.int 1)))))
        [(("a"), .dict [(("y"), PValue.int 2)])] Option.none
        = .ok (.dict (setKey (setKey d0 ("a") (.dict (setKey dI ("x") (.int 1)))) ("a")
            (.dict (setKey (setKey dI ("x") (.int 1)) ("y") (.int 2))))) := by
      rw [updateDict, mergeEntries_single _ _ _ _ (Or.inl rfl),
        mergeInto_dict_dict _ _ _ _ (by rw [hg2]; exact inner2)]
    refine ⟨setKey (setKey d0 ("a") (.dict (setKey dI ("x") (.int 1)))) ("a")
        (.dict (setKey (setKey dI ("x") (.int 1)) ("y") (.int 2))),
      setKey (setKey dI ("x") (.int 1)) ("y") (.int 2), ?_,
      getKey_setKey_self _ _ _, ?_, getKey_setKey_self _ _ _⟩
    · rw [mergeXthenY, step1]
      exact step2
    · rw [getKey_setKey_ne _ _ _ _ (by decide), getKey_setKey_self]
  · intro d0 k v1 v2 h1 h2
    refine ⟨setKey (setKey d0 k v1) k v2, ?_, getKey_setKey_self _ _ _⟩
    cases v1 <;> simp [PValue.isDict] at h1 <;>
      cases v2 <;> simp [PValue.isDict] at h2 <;>
      simp [updateDict, mergeEntries, mergeInto, Except.bind]

/-- Witness for the amended claim C1 at concrete inputs: the empty base
dictionary for the nested-merge part, and key `"cap"` with values `1` then
`"s"` for the last-wins part. -/
theorem claim_C1_witness :
    (∃ res d2, mergeXthenY (.dict []) = .ok (.dict res) ∧
      getKey res ("a") = some (.dict d2) ∧
      getKey d2 ("x") = some (.int 1) ∧ getKey d2 ("y") = some (.int 2)) ∧
    (∃ res,
      (updateDict (.dict []) [(("cap"), .int 1)] Option.none).bind
        (fun m => updateDict m [(("cap"), .str ("s"))] Option.none)
        = .ok (.dict res) ∧
      getKey res ("cap") = some (.str ("s"))) :=
  ⟨claim_C1_amended.1 [] (Or.inl rfl),
   claim_C1_amended.2 [] ("cap") (.int 1) (.str ("s")) rfl rfl⟩

/-! ### Property type coercion (`_convert_property_type`) -/

/-- ASCII whitespace, as stripped by Python `str.strip()` / skipped by the
tokenizer (restricted to the ASCII range). -/
def isSpaceChar (c : Char) : Bool :=
  c = ' ' || c = '\t' || c = '\n' || c = '\r'

/-- Drop leading ASCII whitespace characters. -/
def dropWs : List Char → List Char
  | c :: rest => if isSpaceChar c then dropWs rest else c :: rest
  | [] => []

/-- Strip ASCII whitespace from both ends (Python `str.strip()`). -/
def stripWs (cs : List Char) : List Char :=
  ((dropWs ((dropWs cs).reverse)).reverse)

/-- Accumulate a nonempty digit sequence in which single underscores may
separate digits (PEP 515), as accepted by Python `int()`. -/
def pyIntGo (acc : Nat) : List Char → Option Nat
  | [] => some acc
  | '_' :: c :: rest =>
    if c.isDigit then pyIntGo (acc * 10 + (c.toNat - 48)) rest else Option.none
  | c :: rest =>
    if c.isDigit then pyIntGo (acc * 10 + (c.toNat - 48)) rest else Option.none

/-- Parse a nonempty underscore-separated digit sequence. -/
def pyIntDigits : List Char → Option Nat
  | [] => Option.none
  | c :: rest => if c.isDigit then pyIntGo (c.toNat - 48) rest else Option.none

/-- Model of the Python built-in `int(str)` on ASCII input: optional
surrounding whitespace, an optional sign, then a nonempty digit sequence with
optional single underscores between digits. `Option.none` where Python raises
`ValueError`. Collaborator called at `config_driver.py` line 315. -/
def pyInt (s : String) : Option Int :=
  match stripWs s.data with
  | '+' :: rest => (pyIntDigits rest).map (fun n => (n : Int))
  | '-' :: rest => (pyIntDigits rest).map (fun n => -(n : Int))
  | cs => (pyIntDigits cs).map (fun n => (n : Int))

/-- Parse the body of a Python string literal delimited by the quote
character `q`, handling the common backslash escapes; an unknown escape keeps
the backslash (as in Python), a raw newline or end of input before the
closing quote is a syntax error. -/
def parseStrBody (q : Char) : List Char → Option (List Char × List Char)
  | [] => Option.none
  | '\\' :: c :: rest =>
    let esc : List Char :=
      if c = 'n' then ['\n'] else if c = 't' then ['\t']
      else if c = '\\' then ['\\'] else if c = q then [q]
      else if c = Char.ofNat 39 then [c] else if c = '"' then [c]
      else ['\\', c]
    (parseStrBody q rest).map (fun p => (esc ++ p.1, p.2))
  | c :: rest =>
    if c = q then some ([], rest)
    else if c = '\n' then Option.none
    else (parseStrBody q rest).map (fun p => (c :: p.1, p.2))

/-- Take the leading run of digits and underscores. -/
def takeNumChars : List Char → List Char × List Char
  | [] => ([], [])
  | c :: rest =>
    if c.isDigit || c = '_' then
      let p := takeNumChars rest
      (c :: p.1, p.2)
    else ([], c :: rest)

/-- Parse an unsigned integer token; floats and complex literals are outside
the modelled subset and reported as errors. -/
def parseNumToken (cs : List Char) : Except String (PValue × List Char) :=
  let p := takeNumChars cs
  match p.2 with
  | c :: _ =>
    if c = '.' || c = 'e' || c = 'E' || c = 'j' || c = 'J' then
      .error ("unsupported numeric literal in model")
    else
      match pyIntDigits p.1 with
      | some n => .ok (.int n, p.2)
      | Option.none => .error ("SyntaxError: invalid number")
  | [] =>
    match pyIntDigits p.1 with
    | some n => .ok (.int n, p.2)
    | Option.none => .error ("SyntaxError: invalid number")

/-- Build a Python dict value from literal entries: first occurrence keeps
its position, a repeated key keeps the last value (Python dict display). -/
def dictFromEntries (entries : List (String × PValue)) : List (String × PValue) :=
  entries.foldl (fun d p => setKey d p.1 p.2) []

mutual

/-- Parse one literal value (fueled recursive descent; the fuel only bounds
the recursion depth and is chosen large enough never to run out on the given
input). -/
def parseVal : Nat → List Char → Except String (PValue × List Char)
  | 0, _ => .error ("parse depth exceeded")
  | Nat.succ fuel, cs =>
    match dropWs cs with
    | [] => .error ("SyntaxError: unexpected end of input")
    | c :: rest =>
      if c = 'T' then
        match rest with
        | 'r' :: 'u' :: 'e' :: r2 => .ok (.bool true, r2)
        | _ => .error ("ValueError: malformed node")
      else if c = 'F' then
        match rest with
        | 'a' :: 'l' :: 's' :: 'e' :: r2 => .ok (.bool false, r2)
        | _ => .error ("ValueError: malformed node")
      else if c = 'N' then
        match rest with
        | 'o' :: 'n' :: 'e' :: r2 => .ok (.none, r2)
        | _ => .error ("ValueError: malformed node")
      else if c = '"' || c = Char.ofNat 39 then
        match parseStrBody c rest with
        | some (body, r2) => .ok (.str (String.mk body), r2)
        | Option.none => .error ("SyntaxError: unterminated string literal")
      else if c = '[' then
        match parseItems fuel rest with
        | .ok (vs, r2) => .ok (.list vs, r2)
        | .error e => .error e
      else if c = Char.ofNat 123 then
        match parseDictItems fuel rest with
        | .ok (entries, r2) => .ok (.dict (dictFromEntries entries), r2)
        | .error e => .error e
      else if c = '-' then
        match parseNumToken rest with
        | .ok (.int n, r2) => .ok (.int (-n), r2)
        | .ok _ => .error ("SyntaxError: invalid syntax")
        | .error e => .error e
      else if c = '+' then parseNumToken rest
      else if c.isDigit then parseNumToken (c :: rest)
      else .error ("ValueError: malformed node")

/-- Parse the elements of a list literal after the opening bracket, allowing
a trailing comma. -/
def parseItems : Nat → List Char → Except String (List PValue × List Char)
  | 0, _ => .error ("parse depth exceeded")
  | Nat.succ fuel, cs =>
    match dropWs cs with
    | ']' :: rest => .ok ([], rest)
    | cs2 =>
      match parseVal fuel cs2 with
      | .error e => .error e
      | .ok (v, rest) =>
        match dropWs rest with
        | ',' :: rest2 =>
          match parseItems fuel rest2 with
          | .ok (vs, rest3) => .ok (v :: vs, rest3)
          | .error e => .error e
        | ']' :: rest2 => .ok ([v], rest2)
        | _ => .error ("SyntaxError: expected comma or closing bracket")

/-- Parse the entries of a dict literal after the opening brace, allowing a
trailing comma; keys outside string literals (and set displays) are outside
the modelled subset. -/
def parseDictItems : Nat → List Char → Except String (List (String × PValue) × List Char)
  | 0, _ => .error ("parse depth exceeded")
  | Nat.succ fuel, cs =>
    match dropWs cs with
    | c :: rest =>
      if c = Char.ofNat 125 then .ok ([], rest)
      else
        match parseVal fuel (c :: rest) with
        | .error e => .error e
        | .ok (.str k, rest2) =>
          match dropWs rest2 with
          | ':' :: rest3 =>
            match parseVal fuel rest3 with
            | .error e => .error e
            | .ok (v, rest4) =>
              match dropWs rest4 with
              | ',' :: rest5 =>
                match parseDictItems fuel rest5 with
                | .ok (entries, rest6) => .ok ((k, v) :: entries, rest6)
                | .error e => .error e
              | c2 :: rest5 =>
                if c2 = Char.ofNat 125 then .ok ([(k, v)], rest5)
                else .error ("SyntaxError: expected comma or closing brace")
              | [] => .error ("SyntaxError: expected comma or closing brace")
          | _ => .error ("SyntaxError: expected colon")
        | .ok _ => .error ("unsupported dict key or set display in model")
    | [] => .error ("SyntaxError: unexpected end of input")

end

/-- Model of Python `ast.literal_eval`, restricted to the literal forms that
occur as capability values: `None`, `True`, `False`, integers, single- or
double-quoted strings, lists and string-keyed dicts, nested, with optional
whitespace, matching Python on this subset. Floats, complex numbers, tuples,
sets, byte strings and non-string dict keys are outside the model and
reported as errors. `.error` corresponds to the `ValueError`/`SyntaxError`
raised by `ast.literal_eval`. Collaborator called at
`config_driver.py` line 312. -/
def evalLiteral (s : String) : Except String PValue :=
  match parseVal (4 * s.length + 4) s.data with
  | .error e => .error e
  | .ok (v, rest) =>
    match dropWs rest with
    | [] => .ok v
    | _ => .error ("SyntaxError: invalid syntax")

/-- Python `value.startswith(c)` for a single character. -/
def headIs (s : String) (c : Char) : Bool :=
  match s.data with
  | [] => false
  | c2 :: _ => c2 = c

/-- Python `value.endswith(c)` for a single character. -/
def lastIs (s : String) (c : Char) : Bool :=
  match s.data.getLast? with
  | some c2 => c2 = c
  | Option.none => false

/-- The bracket test of `config_driver.py` lines 310-311:
`str(value).startswith` / `endswith` for curly braces or square brackets
(`Char.ofNat 123` and `Char.ofNat 125` are the curly brace characters). -/
def isBracketed (value : String) : Bool :=
  (headIs value (Char.ofNat 123) && lastIs value (Char.ofNat 125))
    || (headIs value '[' && lastIs value ']')

/-- `ConfigDriver._convert_property_type` (`config_driver.py` lines
299-318): `"true"`/`"True"` and `"false"`/`"False"` map to booleans, a
bracketed value goes through `ast.literal_eval`, anything else is parsed as
an integer and kept as a string when that fails. -/
def convertPropertyType (value : String) : Except String PValue :=
  if value = ("true") ∨ value = ("True") then .ok (.bool true)
  else if value = ("false") ∨ value = ("False") then .ok (.bool false)
  else if isBracketed value then evalLiteral value
  else
    match pyInt value with
    | some n => .ok (.int n)
    | Option.none => .ok (.str value)

/-- Claim C2 (confirmed): `_convert_property_type` maps `"true"`/`"True"` to
boolean true and `"false"`/`"False"` to boolean false; a value starting with
a curly brace and ending with one, or starting with a square bracket and
ending with one, is parsed as a structured literal (and a malformed such
literal yields a parse error); every other value maps to its integer parse
when that succeeds and to the unchanged string otherwise; in particular
coercion of `"true"`, `"42"`, `"[1,2]"` and `"abc"` yields `True`, `42`,
`[1, 2]` and `"abc"`. -/
theorem claim_C2 :
    convertPropertyType ("true") = .ok (.bool true) ∧
    convertPropertyType ("True") = .ok (.bool true) ∧
    convertPropertyType ("false") = .ok (.bool false) ∧
    convertPropertyType ("False") = .ok (.bool false) ∧
    (∀ s : String, isBracketed s = true → convertPropertyType s = evalLiteral s) ∧
    (∀ s : String, s ≠ ("true") → s ≠ ("True") → s ≠ ("false") → s ≠ ("False") →
      isBracketed s = false →
      convertPropertyType s = (match pyInt s with
        | some n => .ok (.int n)
        | Option.none => .ok (.str s))) ∧
    convertPropertyType ("42") = .ok (.int 42) ∧
    convertPropertyType ("[1,2]") = .ok (.list [.int 1, .int 2]) ∧
    convertPropertyType ("abc") = .ok (.str ("abc")) ∧
    convertPropertyType ("[1 2]")
      = .error ("SyntaxError: expected comma or closing bracket") := by
  refine ⟨rfl, rfl, rfl, rfl, ?_, ?_, rfl, rfl, rfl, rfl⟩
  · intro s hs
    have h1 : s ≠ ("true") := by rintro rfl; revert hs; decide
    have h2 : s ≠ ("True") := by rintro rfl; revert hs; decide
    have h3 : s ≠ ("false") := by rintro rfl; revert hs; decide
    have h4 : s ≠ ("False") := by rintro rfl; revert hs; decide
    simp [convertPropertyType, h1, h2, h3, h4, hs]
  · intro s h1 h2 h3 h4 hs
    simp [convertPropertyType, h1, h2, h3, h4, hs]

/-- Witness for claim C2 at concrete inputs: the bracketed value `"[3]"`
goes through the literal parser, and the plain value `"chrome"` is kept as a
string. -/
theorem claim_C2_witness :
    convertPropertyType ("[3]") = evalLiteral ("[3]") ∧
    convertPropertyType ("chrome") = .ok (.str ("chrome")) :=
  ⟨claim_C2.2.2.2.2.1 ("[3]") rfl,
   claim_C2.2.2.2.2.2.1 ("chrome") (by decide) (by decide) (by decide) (by decide) rfl⟩

/-! ### Base capabilities and driver-type dispatch -/

/-- Model of the selenium 3.x `DesiredCapabilities.FIREFOX` constant
(collaborator; exact contents are selenium's, only their presence as a base
mapping matters for the claims). -/
def DesiredCapabilities.FIREFOX : List (String × PValue) :=
  [(("browserName"), .str ("firefox")), (("marionette"), .bool true),
   (("acceptInsecureCerts"), .bool true)]

/-- Model of selenium `DesiredCapabilities.CHROME`. -/
def DesiredCapabilities.CHROME : List (String × PValue) :=
  [(("browserName"), .str ("chrome")), (("version"), .str ("")),
   (("platform"), .str ("ANY"))]

/-- Model of selenium `DesiredCapabilities.SAFARI`. -/
def DesiredCapabilities.SAFARI : List (String × PValue) :=
  [(("browserName"), .str ("safari")), (("version"), .str ("")),
   (("platform"), .str ("MAC"))]

/-- Model of selenium `DesiredCapabilities.OPERA`. -/
def DesiredCapabilities.OPERA : List (String × PValue) :=
  [(("browserName"), .str ("opera")), (("version"), .str ("")),
   (("platform"), .str ("ANY"))]

/-- Model of selenium `DesiredCapabilities.INTERNETEXPLORER`. -/
def DesiredCapabilities.INTERNETEXPLORER : List (String × PValue) :=
  [(("browserName"), .str ("internet explorer")), (("version"), .str ("")),
   (("platform"), .str ("WINDOWS"))]

/-- Model of selenium `DesiredCapabilities.EDGE`. -/
def DesiredCapabilities.EDGE : List (String × PValue) :=
  [(("browserName"), .str ("MicrosoftEdge")), (("version"), .str ("")),
   (("platform"), .str ("ANY"))]

/-- Model of selenium `DesiredCapabilities.PHANTOMJS`. -/
def DesiredCapabilities.PHANTOMJS : List (String × PValue) :=
  [(("browserName"), .str ("phantomjs")), (("version"), .str ("")),
   (("platform"), .str ("ANY")), (("javascriptEnabled"), .bool true)]

/-- The literal playwright capability dict of
`config_driver.py` lines 167-172. -/
def playwrightCapabilities : List (String × PValue) :=
  [(("browserName"), .str ("playwright")), (("version"), .str ("1.2.6")),
   (("platform"), .str ("ANY")), (("javascriptEnabled"), .bool true)]

/-- The enumerated driver-type names recognized by the subsystem. -/
def knownDriverNames : List String :=
  [("firefox"), ("chrome"), ("safari"), ("opera"), ("iexplore"), ("edge"),
   ("phantomjs"), ("playwright"), ("android"), ("ios"), ("iphone")]

/-- `ConfigDriver._get_capabilities_from_driver_type`
(`config_driver.py` lines 144-177): base capability mapping per recognized
driver name; any other name raises `ValueError('Unknown driver ...')`. -/
def getCapabilitiesFromDriverType (driverName : String) :
    Except String (List (String × PValue)) :=
  if driverName = ("firefox") then .ok DesiredCapabilities.FIREFOX
  else if driverName = ("chrome") then .ok DesiredCapabilities.CHROME
  else if driverName = ("safari") then .ok DesiredCapabilities.SAFARI
  else if driverName = ("opera") then .ok DesiredCapabilities.OPERA
  else if driverName = ("iexplore") then .ok DesiredCapabilities.INTERNETEXPLORER
  else if driverName = ("edge") then .ok DesiredCapabilities.EDGE
  else if driverName = ("phantomjs") then .ok DesiredCapabilities.PHANTOMJS
  else if driverName = ("playwright") then .ok playwrightCapabilities
  else if driverName = ("android") ∨ driverName = ("ios") ∨ driverName = ("iphone") then
    .ok []
  else .error (("ValueError: Unknown driver ") ++ driverName)

/-- The local setup routines of the `driver_setup` dispatch table of
`_create_local_driver`, plus the Appium branch taken for mobile names. -/
inductive SetupRoutine where
  | appium | firefox | chrome | safari | opera | iexplore | edge | phantomjs | playwright
deriving Repr, DecidableEq

/-- The routing decision of `ConfigDriver._create_local_driver`
(`config_driver.py` lines 109-142): mobile names go to `_setup_appium`;
every other name is looked up in the `driver_setup` dispatch table, and a
missing entry raises `ValueError('Unknown driver ...')`. -/
def createLocalDriverRoute (driverName : String) : Except String SetupRoutine :=
  if driverName = ("android") ∨ driverName = ("ios") ∨ driverName = ("iphone") then
    .ok .appium
  else if driverName = ("firefox") then .ok .firefox
  else if driverName = ("chrome") then .ok .chrome
  else if driverName = ("safari") then .ok .safari
  else if driverName = ("opera") then .ok .opera
  else if driverName = ("iexplore") then .ok .iexplore
  else if driverName = ("edge") then .ok .edge
  else if driverName = ("phantomjs") then .ok .phantomjs
  else if driverName = ("playwright") then .ok .playwright
  else .error (("ValueError: Unknown driver ") ++ driverName)

/-- Claim C3 (confirmed): for every driver-type name outside the enumerated
set, building the base capability set and routing local driver construction
both fail with an unknown-driver error; for every name inside the set a base
capability mapping is returned. -/
theorem claim_C3 :
    (∀ name : String, name ∉ knownDriverNames →
      getCapabilitiesFromDriverType name = .error (("ValueError: Unknown driver ") ++ name) ∧
      createLocalDriverRoute name = .error (("ValueError: Unknown driver ") ++ name)) ∧
    (∀ name ∈ knownDriverNames, ∃ caps, getCapabilitiesFromDriverType name = .ok caps) := by
  constructor
  · intro name h
    simp only [knownDriverNames, List.mem_cons, List.not_mem_nil, or_false, not_or] at h
    obtain ⟨h1, h2, h3, h4, h5, h6, h7, h8, h9, h10, h11⟩ := h
    constructor <;>
      simp [getCapabilitiesFromDriverType, createLocalDriverRoute,
        h1, h2, h3, h4, h5, h6, h7, h8, h9, h10, h11]
  · intro name h
    fin_cases h <;> exact ⟨_, rfl⟩

/-- Witness for claim C3: the unknown name `"foo"` fails on both paths, and
the known name `"chrome"` yields a base capability mapping. -/
theorem claim_C3_witness :
    (getCapabilitiesFromDriverType ("foo")
        = .error (("ValueError: Unknown driver ") ++ ("foo")) ∧
      createLocalDriverRoute ("foo")
        = .error (("ValueError: Unknown driver ") ++ ("foo"))) ∧
    (∃ caps, getCapabilitiesFromDriverType ("chrome") = .ok caps) :=
  ⟨claim_C3.1 ("foo") (by decide), claim_C3.2 ("chrome") (by decide)⟩

/-! ### Version and platform from the driver-type string -/

/-- Python `str.split(sep)` for a single-character separator and no maxsplit:
split at every separator occurrence, keeping empty fields; the split of the
empty string is one empty field. -/
def splitOnChar (sep : Char) : List Char → List (List Char)
  | [] => [[]]
  | c :: rest =>
    let r := splitOnChar sep rest
    if c = sep then [] :: r
    else
      match r with
      | f :: fs => (c :: f) :: fs
      | [] => [[c]]

/-- Python `s.split(sep)` returning strings. -/
def pySplit (sep : Char) (s : String) : List String :=
  (splitOnChar sep s.data).map String.mk

/-- The `platforms_list` translation table of
`config_driver.py` lines 191-197. -/
def platformsList : List (String × String) :=
  [(("xp"), ("XP")), (("windows_7"), ("VISTA")), (("windows_8"), ("WIN8")),
   (("windows_10"), ("WIN10")), (("linux"), ("LINUX")),
   (("android"), ("ANDROID")), (("mac"), ("MAC"))]

/-- First `try` block of `_add_capabilities_from_driver_type`
(`config_driver.py` lines 185-188): `capabilities['version'] =
driver_type.split('-')[1]`, with `IndexError` swallowed. -/
def addVersionCap (driverType : String) (caps : List (String × PValue)) :
    List (String × PValue) :=
  match (pySplit '-' driverType).get? 1 with
  | some v => setKey caps ("version") (.str v)
  | Option.none => caps

/-- Second `try` block of `_add_capabilities_from_driver_type`
(`config_driver.py` lines 190-200): `capabilities['platform'] =
platforms_list.get(driver_type.split('-')[3], driver_type.split('-')[3])`,
with `IndexError` swallowed. -/
def addPlatformCap (driverType : String) (caps : List (String × PValue)) :
    List (String × PValue) :=
  match (pySplit '-' driverType).get? 3 with
  | some p => setKey caps ("platform") (.str ((getKey platformsList p).getD p))
  | Option.none => caps

/-- `ConfigDriver._add_capabilities_from_driver_type`
(`config_driver.py` lines 179-200). -/
def addCapabilitiesFromDriverType (driverType : String)
    (caps : List (String × PValue)) : List (String × PValue) :=
  addPlatformCap driverType (addVersionCap driverType caps)

/-- Claim C4, counterexample: `"chrome-76-windows_10"` splits into only
three hyphen fields, so reading field index 3 raises `IndexError` and no
platform capability is added; the capability set gains version `"76"` but
not platform `"WIN10"` as the claim asserts. -/
theorem claim_C4_counterexample :
    getKey (addCapabilitiesFromDriverType ("chrome-76-windows_10") []) ("platform")
        = Option.none ∧
    getKey (addCapabilitiesFromDriverType ("chrome-76-windows_10") []) ("version")
        = some (.str ("76")) := by
  exact ⟨rfl, rfl⟩

theorem addCaps_version_set (driverType : String) (caps : List (String × PValue))
    (v : String) (hv : (pySplit '-' driverType).get? 1 = some v) :
    getKey (addCapabilitiesFromDriverType driverType caps) ("version")
      = some (.str v) := by
  cases h3 : (pySplit '-' driverType).get? 3 with
  | some p =>
    simp only [addCapabilitiesFromDriverType, addVersionCap, addPlatformCap, hv, h3]
    rw [getKey_setKey_ne _ _ _ _ (by decide), getKey_setKey_self]
  | none =>
    simp only [addCapabilitiesFromDriverType, addVersionCap, addPlatformCap, hv, h3]
    exact getKey_setKey_self _ _ _

theorem addCaps_platform_set (driverType : String) (caps : List (String × PValue))
    (p : String) (hp : (pySplit '-' driverType).get? 3 = some p) :
    getKey (addCapabilitiesFromDriverType driverType caps) ("platform")
      = some (.str ((getKey platformsList p).getD p)) := by
  simp only [addCapabilitiesFromDriverType, addPlatformCap, hp]
  exact getKey_setKey_self _ _ _

theorem addCaps_platform_unchanged (driverType : String) (caps : List (String × PValue))
    (h3 : (pySplit '-' driverType).get? 3 = Option.none) :
    getKey (addCapabilitiesFromDriverType driverType caps) ("platform")
      = getKey caps ("platform") := by
  cases hv : (pySplit '-' driverType).get? 1 with
  | some v =>
    simp only [addCapabilitiesFromDriverType, addVersionCap, addPlatformCap, hv, h3]
    exact getKey_setKey_ne _ _ _ _ (by decide)
  | none =>
    simp only [addCapabilitiesFromDriverType, addVersionCap, addPlatformCap, hv, h3]

theorem addCaps_version_unchanged (driverType : String) (caps : List (String × PValue))
    (h1 : (pySplit '-' driverType).get? 1 = Option.none)
    (h3 : (pySplit '-' driverType).get? 3 = Option.none) :
    getKey (addCapabilitiesFromDriverType driverType caps) ("version")
      = getKey caps ("version") := by
  simp only [addCapabilitiesFromDriverType, addVersionCap, addPlatformCap, h1, h3]

/-- Claim C4 as amended: parsing takes hyphen field index 1 as the version
and field index 3 as the platform code (translated through the lookup table
and passed through unchanged when absent from it, and left untouched when
the field is missing); in particular `"chrome-76-on-windows_10"` gains
version `"76"` and platform `"WIN10"`, while the claim's example
`"chrome-76-windows_10"` (three fields) gains version `"76"` and no
platform key. -/
theorem claim_C4_amended :
    (∀ (driverType : String) (caps : List (String × PValue)),
      (∀ v, (pySplit '-' driverType).get? 1 = some v →
        getKey (addCapabilitiesFromDriverType driverType caps) ("version")
          = some (.str v)) ∧
      (∀ p, (pySplit '-' driverType).get? 3 = some p →
        getKey (addCapabilitiesFromDriverType driverType caps) ("platform")
          = some (.str ((getKey platformsList p).getD p))) ∧
      ((pySplit '-' driverType).get? 3 = Option.none →
        getKey (addCapabilitiesFromDriverType driverType caps) ("platform")
          = getKey caps ("platform"))) ∧
    getKey (addCapabilitiesFromDriverType ("chrome-76-on-windows_10") []) ("version")
        = some (.str ("76")) ∧
    getKey (addCapabilitiesFromDriverType ("chrome-76-on-windows_10") []) ("platform")
        = some (.str ("WIN10")) ∧
    getKey (addCapabilitiesFromDriverType ("chrome-76-windows_10") []) ("platform")
        = Option.none := by
  refine ⟨?_, rfl, rfl, rfl⟩
  intro driverType caps
  exact ⟨fun v hv => addCaps_version_set driverType caps v hv,
    fun p hp => addCaps_platform_set driverType caps p hp,
    fun h3 => addCaps_platform_unchanged driverType caps h3⟩

/-- Witness for the amended claim C4 at the driver-type string
`"edge-11-on-mac"`. -/
theorem claim_C4_witness :
    getKey (addCapabilitiesFromDriverType ("edge-11-on-mac") []) ("version")
        = some (.str ("11")) ∧
    getKey (addCapabilitiesFromDriverType ("edge-11-on-mac") []) ("platform")
        = some (.str ((getKey platformsList ("mac")).getD ("mac"))) :=
  ⟨(claim_C4_amended.1 ("edge-11-on-mac") []).1 ("11") rfl,
   (claim_C4_amended.1 ("edge-11-on-mac") []).2.1 ("mac") rfl⟩

/-- Claim C5, counterexample: the driver-type string `"chrome-76"` has two
hyphen fields, fewer than four, yet a `version` key is added to the
capability set (the claim asserts neither a version nor a platform key is
added). -/
theorem claim_C5_counterexample :
    (pySplit '-' ("chrome-76")).length < 4 ∧
    getKey (addCapabilitiesFromDriverType ("chrome-76") []) ("version")
        = some (.str ("76")) := by
  exact ⟨by decide, rfl⟩

/-- Claim C5 as amended: for every driver-type string with fewer than four
hyphen fields, adding version/platform capabilities raises no error (the
operation is total), the platform entry is left unchanged, a version key is
set exactly when the string has at least two fields, and with fewer than two
fields the version entry is also unchanged. -/
theorem claim_C5_amended :
    ∀ (driverType : String) (caps : List (String × PValue)),
      (pySplit '-' driverType).length < 4 →
      (getKey (addCapabilitiesFromDriverType driverType caps) ("platform")
          = getKey caps ("platform")) ∧
      (2 ≤ (pySplit '-' driverType).length →
        ∃ v, (pySplit '-' driverType).get? 1 = some v ∧
          getKey (addCapabilitiesFromDriverType driverType caps) ("version")
            = some (.str v)) ∧
      ((pySplit '-' driverType).length < 2 →
        getKey (addCapabilitiesFromDriverType driverType caps) ("version")
          = getKey caps ("version")) := by
  intro driverType caps h4
  have h3 : (pySplit '-' driverType).get? 3 = Option.none :=
    List.get?_eq_none.mpr (by omega)
  refine ⟨addCaps_platform_unchanged driverType caps h3, ?_, ?_⟩
  · intro h2
    have hlt : 1 < (pySplit '-' driverType).length := by omega
    exact ⟨(pySplit '-' driverType).get ⟨1, hlt⟩, List.get?_eq_get hlt,
      addCaps_version_set driverType caps _ (List.get?_eq_get hlt)⟩
  · intro h2
    have h1 : (pySplit '-' driverType).get? 1 = Option.none :=
      List.get?_eq_none.mpr (by omega)
    exact addCaps_version_unchanged driverType caps h1 h3

/-- Witness for the amended claim C5 at the driver-type strings
`"chrome-76"` (two fields) and `"safari"` (one field). -/
theorem claim_C5_witness :
    (getKey (addCapabilitiesFromDriverType ("chrome-76") []) ("platform")
        = getKey ([] : List (String × PValue)) ("platform")) ∧
    (∃ v, (pySplit '-' ("chrome-76")).get? 1 = some v ∧
      getKey (addCapabilitiesFromDriverType ("chrome-76") []) ("version")
        = some (.str v)) ∧
    (getKey (addCapabilitiesFromDriverType ("safari") []) ("version")
        = getKey ([] : List (String × PValue)) ("version")) :=
  ⟨(claim_C5_amended ("chrome-76") [] (by decide)).1,
   (claim_C5_amended ("chrome-76") [] (by decide)).2.1 (by decide),
   (claim_C5_amended ("safari") [] (by decide)).2.2 (by decide)⟩

/-! ### Capabilities from configuration properties -/

/-- One iteration of `_add_capabilities_from_properties`
(`config_driver.py` lines 210-213): the `cap_type[section]` lookup used for
logging (a `KeyError` for a section other than the two known ones), the
`version` exemption from type coercion (`cap_value = cap_value if cap ==
'version' else self._convert_property_type(cap_value)`), and the
`_update_dict` merge restricted to the entry's own key. -/
def addCapabilityEntry (caps : PValue) (sectionName : String)
    (cap capValue : String) : Except String PValue :=
  if sectionName = ("Capabilities") ∨ sectionName = ("AppiumCapabilities") then
    match (if cap = ("version") then .ok (.str capValue)
        else convertPropertyType capValue : Except String PValue) with
    | .ok v => updateDict caps [(cap, v)] (some cap)
    | .error e => .error e
  else .error (("KeyError: ") ++ sectionName)

/-- The iteration of `_add_capabilities_from_properties` over the section's
key/value pairs in order. -/
def addCapabilitiesLoop (caps : PValue) (sectionName : String) :
    List (String × String) → Except String PValue
  | [] => .ok caps
  | (cap, capValue) :: rest =>
    match addCapabilityEntry caps sectionName cap capValue with
    | .ok caps2 => addCapabilitiesLoop caps2 sectionName rest
    | .error e => .error e

/-- `ConfigDriver._add_capabilities_from_properties`
(`config_driver.py` lines 202-215); `sectionItems` is `Option.none` when the
configuration has no such section, in which case the `NoSectionError` is
swallowed and the capabilities are left unchanged. -/
def addCapabilitiesFromProperties (caps : PValue) (sectionName : String)
    (sectionItems : Option (List (String × String))) : Except String PValue :=
  match sectionItems with
  | Option.none => .ok caps
  | some items => addCapabilitiesLoop caps sectionName items

/-- Claim C6, counterexample: for the section entry `version = 42` the value
merged into the capability set is the raw string `"42"`, not
`_convert_property_type("42")` (which is the integer `42`): the key
`'version'` is exempted from coercion at `config_driver.py` line 212. -/
theorem claim_C6_counterexample :
    addCapabilitiesFromProperties (.dict []) ("Capabilities")
        (some [(("version"), ("42"))])
      = .ok (.dict [(("version"), .str ("42"))]) ∧
    convertPropertyType ("42") = .ok (.int 42) ∧
    PValue.str ("42") ≠ PValue.int 42 := by
  refine ⟨?_, rfl, by simp⟩
  have hupd : updateDict (.dict []) [(("version"), PValue.str ("42"))]
      (some ("version")) = .ok (.dict [(("version"), .str ("42"))]) := by
    rw [updateDict, mergeEntries_single _ _ _ _ (Or.inr rfl),
      mergeInto_leaf_dict [] ("version") (.str ("42")) rfl]
    rfl
  simp [addCapabilitiesFromProperties, addCapabilitiesLoop, addCapabilityEntry, hupd]

/-- Claim C6 as amended: for every entry of a `Capabilities` or
`AppiumCapabilities` section whose key is not `'version'`, the value merged
into the capability set is `_convert_property_type` of the raw string value;
for the key `'version'` the raw string itself is merged instead. -/
theorem claim_C6_amended :
    ∀ (d0 : List (String × PValue)) (sec k v : String) (val : PValue),
      (sec = ("Capabilities") ∨ sec = ("AppiumCapabilities")) →
      (k ≠ ("version") → convertPropertyType v = .ok val → val.isDict = false →
        addCapabilitiesFromProperties (.dict d0) sec (some [(k, v)])
          = .ok (.dict (setKey d0 k val))) ∧
      (k = ("version") →
        addCapabilitiesFromProperties (.dict d0) sec (some [(k, v)])
          = .ok (.dict (setKey d0 k (.str v)))) := by
  intro d0 sec k v val hsec
  constructor
  · intro hk hconv hdict
    have hupd : updateDict (.dict d0) [(k, val)] (some k)
        = .ok (.dict (setKey d0 k val)) := by
      rw [updateDict, mergeEntries_single _ _ _ _ (Or.inr rfl),
        mergeInto_leaf_dict d0 k val hdict]
    simp [addCapabilitiesFromProperties, addCapabilitiesLoop, addCapabilityEntry,
      if_pos hsec, hk, hconv, hupd]
  · intro hk
    subst hk
    have hupd : updateDict (.dict d0) [(("version"), PValue.str v)] (some ("version"))
        = .ok (.dict (setKey d0 ("version") (.str v))) := by
      rw [updateDict, mergeEntries_single _ _ _ _ (Or.inr rfl),
        mergeInto_leaf_dict d0 ("version") (.str v) rfl]
    simp [addCapabilitiesFromProperties, addCapabilitiesLoop, addCapabilityEntry,
      if_pos hsec, hupd]

/-- Witness for the amended claim C6: a `headless = true` entry is coerced
to a boolean, and a `version = 9` entry in the Appium section is kept as the
raw string. -/
theorem claim_C6_witness :
    (addCapabilitiesFromProperties (.dict []) ("Capabilities")
        (some [(("headless"), ("true"))])
      = .ok (.dict (setKey [] ("headless") (.bool true)))) ∧
    (addCapabilitiesFromProperties (.dict []) ("AppiumCapabilities")
        (some [(("version"), ("9"))])
      = .ok (.dict (setKey [] ("version") (.str ("9"))))) :=
  ⟨(claim_C6_amended [] ("Capabilities") ("headless") ("true") (.bool true)
      (Or.inl rfl)).1 (by decide) rfl rfl,
   (claim_C6_amended [] ("AppiumCapabilities") ("version") ("9") (.str ("9"))
      (Or.inr rfl)).2 rfl⟩

/-! ### Driver creation failure semantics -/

/-- `get_error_message_from_exception` (`config_driver.py` lines 34-43):
`str(exception).split('\n', 1)[0]`, the first line of the exception message.
Exceptions are modelled by their message strings. -/
def getErrorMessageFromException (exc : String) : String :=
  String.mk (exc.data.takeWhile (fun c => c != '\n'))

/-- Python `str.capitalize()`: first character uppercased, the rest
lowercased (ASCII model). -/
def pyCapitalize (s : String) : String :=
  match s.data with
  | [] => ("")
  | c :: rest => String.mk (c.toUpper :: rest.map Char.toLower)

/-- `ConfigDriver.create_driver` (`config_driver.py` lines 52-71), modelled
over the outcome of the attempted construction: the `Server.enabled` flag
selects the remote or local constructor, whose outcome is a parameter
(exceptions modelled by their message strings); on failure the method logs
the capitalized driver type with the first line of the error message via
`logger.error` and re-raises the same exception with a bare `raise`.
Returns the `logger.error` record alongside the result. -/
def createDriver {α : Type} (driverType : String) (serverEnabled : Bool)
    (remoteResult localResult : Except String α) :
    List String × Except String α :=
  match (if serverEnabled then remoteResult else localResult) with
  | .ok d => ([], .ok d)
  | .error e =>
    ([pyCapitalize driverType ++ (" driver can not be launched: ")
        ++ getErrorMessageFromException e], .error e)

/-- Claim C7 (confirmed): for every exception raised while constructing a
driver (remote or local), `create_driver` logs a message containing the
first line of the exception's message and re-raises the very same exception;
a successful construction is returned unchanged, so failures are never
swallowed or converted. -/
theorem claim_C7 :
    ∀ (α : Type) (driverType : String) (serverEnabled : Bool)
      (remoteResult localResult : Except String α) (e : String),
      ((if serverEnabled then remoteResult else localResult) = .error e →
        (createDriver driverType serverEnabled remoteResult localResult).2
            = .error e ∧
        ∃ pre, (pre ++ String.mk (e.data.takeWhile (fun c => c != '\n')))
          ∈ (createDriver driverType serverEnabled remoteResult localResult).1) ∧
      (∀ d, (if serverEnabled then remoteResult else localResult) = .ok d →
        (createDriver driverType serverEnabled remoteResult localResult).2
          = .ok d) := by
  intro α driverType serverEnabled r l e
  constructor
  · intro h
    refine ⟨by simp [createDriver, h],
      pyCapitalize driverType ++ (" driver can not be launched: "), ?_⟩
    simp [createDriver, h, getErrorMessageFromException]
  · intro d h
    simp [createDriver, h]

/-- Witness for claim C7: a remote construction failing with the two-line
message `"boom\ndetails"` is logged and re-raised, and a successful local
construction is passed through. -/
theorem claim_C7_witness :
    ((createDriver ("chrome") true (.error ("boom\ndetails")) (.ok (0 : Nat))).2
        = .error ("boom\ndetails") ∧
      ∃ pre, (pre ++ String.mk (("boom\ndetails").data.takeWhile (fun c => c != '\n')))
        ∈ (createDriver ("chrome") true (.error ("boom\ndetails")) (.ok (0 : Nat))).1) ∧
    (createDriver ("chrome") false (.error ("x")) (.ok (7 : Nat))).2 = .ok 7 :=
  ⟨(claim_C7 Nat ("chrome") true (.error ("boom\ndetails")) (.ok 0)
      ("boom\ndetails")).1 rfl,
   (claim_C7 Nat ("chrome") false (.error ("x")) (.ok 7) ("x")).2 7 rfl⟩

/-! ### Configuration mutation during driver construction -/

/-- A configparser-style configuration: named sections of key/value string
pairs. -/
def Config : Type := List (String × List (String × String))

/-- Optional configuration lookup (`config.get_optional` and friends). -/
def configGet (cfg : Config) (sectionName key : String) : Option String :=
  match getKey cfg sectionName with
  | some kvs => getKey kvs key
  | Option.none => Option.none

/-- `configparser.set(section, option, value)`: replaces or adds the option
within an existing section and raises `NoSectionError` when the section does
not exist. -/
def configSet (cfg : Config) (sectionName key value : String) :
    Except String Config :=
  match getKey cfg sectionName with
  | some kvs => .ok (setKey cfg sectionName (setKey kvs key value))
  | Option.none => .error (("NoSectionError: ") ++ sectionName)

/-- The configuration effect of `_setup_appium`
(`config_driver.py` lines 465-472): `config.set('Server', 'host',
'127.0.0.1')` then `config.set('Server', 'port', '4723')` before re-entering
the remote path, which only reads the configuration. -/
def setupAppiumConfigEffect (cfg : Config) : Except String Config :=
  match configSet cfg ("Server") ("host") ("127.0.0.1") with
  | .ok cfg2 => configSet cfg2 ("Server") ("port") ("4723")
  | .error e => .error e

/-- The configuration effect of `ConfigDriver.create_driver`: the remote
path and every non-mobile local setup routine only read the configuration
(`config.get` / `get_optional` / `getboolean_optional` / `items`); the only
`config.set` calls in the module are the two in `_setup_appium`, reached
exactly when the server is not enabled and the driver name is mobile
(`config_driver.py` lines 109-142, 465-472). -/
def createDriverConfigEffect (cfg : Config) (serverEnabled : Bool)
    (driverName : String) : Except String Config :=
  if serverEnabled then .ok cfg
  else if driverName = ("android") ∨ driverName = ("ios") ∨ driverName = ("iphone") then
    setupAppiumConfigEffect cfg
  else .ok cfg

theorem setupAppium_effect (cfg : Config) (ss : List (String × String))
    (hss : getKey cfg ("Server") = some ss) :
    setupAppiumConfigEffect cfg
      = .ok (setKey (setKey cfg ("Server") (setKey ss ("host") ("127.0.0.1")))
          ("Server") (setKey (setKey ss ("host") ("127.0.0.1")) ("port") ("4723"))) := by
  simp [setupAppiumConfigEffect, configSet, hss, getKey_setKey_self]

/-- Claim C8, counterexample: constructing a local driver of the mobile type
`android` overwrites `Server.host` and `Server.port` in the shared
configuration object (`_setup_appium`, `config_driver.py` lines 470-471),
so the configuration is not left unchanged. -/
theorem claim_C8_counterexample :
    createDriverConfigEffect
        [(("Server"), [(("host"), ("remote.example")), (("port"), ("4444"))])]
        false ("android")
      = .ok [(("Server"), [(("host"), ("127.0.0.1")), (("port"), ("4723"))])] ∧
    configGet [(("Server"), [(("host"), ("remote.example")), (("port"), ("4444"))])]
        ("Server") ("host")
      ≠ configGet [(("Server"), [(("host"), ("127.0.0.1")), (("port"), ("4723"))])]
          ("Server") ("host") := by
  exact ⟨rfl, by decide⟩

/-- Claim C8 as amended: for every non-mobile driver type, and for every
remote construction, the configuration is left unchanged by driver
construction; for the mobile types (`android`, `ios`, `iphone`) local
construction sets `Server.host` to `127.0.0.1` and `Server.port` to `4723`
and leaves every other section and key unchanged. -/
theorem claim_C8_amended :
    ∀ (cfg : Config) (serverEnabled : Bool) (driverName : String),
      (driverName ∉ [("android"), ("ios"), ("iphone")] →
        createDriverConfigEffect cfg serverEnabled driverName = .ok cfg) ∧
      (serverEnabled = true →
        createDriverConfigEffect cfg serverEnabled driverName = .ok cfg) ∧
      (serverEnabled = false →
        driverName ∈ [("android"), ("ios"), ("iphone")] →
        ∀ ss, getKey cfg ("Server") = some ss →
        ∃ cfg2,
          createDriverConfigEffect cfg serverEnabled driverName = .ok cfg2 ∧
          configGet cfg2 ("Server") ("host") = some ("127.0.0.1") ∧
          configGet cfg2 ("Server") ("port") = some ("4723") ∧
          (∀ sec key, sec ≠ ("Server") →
            configGet cfg2 sec key = configGet cfg sec key) ∧
          (∀ key, key ≠ ("host") → key ≠ ("port") →
            configGet cfg2 ("Server") key = configGet cfg ("Server") key)) := by
  intro cfg serverEnabled driverName
  refine ⟨?_, ?_, ?_⟩
  · intro h
    simp only [List.mem_cons, List.not_mem_nil, or_false, not_or] at h
    obtain ⟨h1, h2, h3⟩ := h
    cases serverEnabled <;> simp [createDriverConfigEffect, h1, h2, h3]
  · intro h
    subst h
    simp [createDriverConfigEffect]
  · intro hse hmem ss hss
    subst hse
    have hcond : driverName = ("android") ∨ driverName = ("ios")
        ∨ driverName = ("iphone") := by simpa using hmem
    have heff : createDriverConfigEffect cfg false driverName
        = setupAppiumConfigEffect cfg := by
      simp [createDriverConfigEffect, hcond]
    refine ⟨setKey (setKey cfg ("Server") (setKey ss ("host") ("127.0.0.1")))
        ("Server") (setKey (setKey ss ("host") ("127.0.0.1")) ("port") ("4723")),
      by rw [heff, setupAppium_effect cfg ss hss], ?_, ?_, ?_, ?_⟩
    · simp only [configGet, getKey_setKey_self]
      rw [getKey_setKey_ne _ _ _ _ (by decide), getKey_setKey_self]
    · simp only [configGet, getKey_setKey_self]
    · intro sec key hsec
      simp only [configGet]
      rw [getKey_setKey_ne _ _ _ _ hsec, getKey_setKey_ne _ _ _ _ hsec]
    · intro key hk1 hk2
      simp only [configGet, getKey_setKey_self, hss]
      rw [getKey_setKey_ne _ _ _ _ hk2, getKey_setKey_ne _ _ _ _ hk1]

/-- Witness for the amended claim C8: a `chrome` construction leaves a
one-section configuration unchanged, and an `android` local construction
rewrites the server endpoint while preserving the `Driver` section. -/
theorem claim_C8_witness :
    (createDriverConfigEffect [(("Server"), [(("host"), ("h"))])] false ("chrome")
        = .ok [(("Server"), [(("host"), ("h"))])]) ∧
    (∃ cfg2,
      createDriverConfigEffect
          [(("Server"), [(("host"), ("h"))]), (("Driver"), [(("type"), ("android"))])]
          false ("android")
        = .ok cfg2 ∧
      configGet cfg2 ("Server") ("host") = some ("127.0.0.1") ∧
      configGet cfg2 ("Server") ("port") = some ("4723") ∧
      (∀ sec key, sec ≠ ("Server") →
        configGet cfg2 sec key
          = configGet [(("Server"), [(("host"), ("h"))]),
              (("Driver"), [(("type"), ("android"))])] sec key) ∧
      (∀ key, key ≠ ("host") → key ≠ ("port") →
        configGet cfg2 ("Server") key
          = configGet [(("Server"), [(("host"), ("h"))]),
              (("Driver"), [(("type"), ("android"))])] ("Server") key)) :=
  ⟨(claim_C8_amended [(("Server"), [(("host"), ("h"))])] false ("chrome")).1
      (by decide),
   (claim_C8_amended [(("Server"), [(("host"), ("h"))]),
        (("Driver"), [(("type"), ("android"))])] false ("android")).2.2
      rfl (by decide) [(("host"), ("h"))] rfl⟩

/-! ### Jira reporting: status accumulation -/

/-- One recorded Jira test status: the tuple
`(test_key, test_status, test_comment, attachments)` stored in
`jira_tests_status` (`jira.py` line 158). -/
structure JiraTestStatus where
  key : String
  status : String
  comment : Option String
  attach : List String
deriving Repr, DecidableEq

/-- The module-level reporting state of `jira.py`: the `jira_tests_status`
dict and the `attachments` list. -/
structure JiraState where
  tests : List (String × JiraTestStatus)
  attachments : List String
deriving Repr, DecidableEq

/-- Python truthiness of an optional string (`None` and the empty string
are falsy). -/
def truthyOptStr : Option String → Bool
  | some s => s != ("")
  | Option.none => false

/-- `add_jira_status` (`jira.py` lines 137-161): with reporting enabled and
a truthy test key, merge with any previously recorded status for the same
key — the status stays `Pass` only when both are `Pass`; comments
concatenate with a newline when both are truthy and keep the earlier one
when only it is truthy; the previous entry's attachments accumulate into
the module-level list — and store the merged tuple. A falsy key or disabled
reporting leaves the state unchanged. -/
def addJiraStatus (enabled : Bool) (st : JiraState) (testKey testStatus : String)
    (testComment : Option String) : JiraState :=
  if (testKey != ("")) && enabled then
    match getKey st.tests testKey with
    | some prev =>
      let newStatus := if prev.status = ("Pass") ∧ testStatus = ("Pass")
        then ("Pass") else ("Fail")
      let newComment :=
        if truthyOptStr prev.comment && truthyOptStr testComment then
          some ((prev.comment.getD ("")) ++ ("\n") ++ (testComment.getD ("")))
        else if truthyOptStr prev.comment && !truthyOptStr testComment then
          prev.comment
        else testComment
      let newAttach := st.attachments ++ prev.attach
      { tests := setKey st.tests testKey ⟨testKey, newStatus, newComment, newAttach⟩,
        attachments := newAttach }
    | Option.none =>
      { tests := setKey st.tests testKey
          ⟨testKey, testStatus, testComment, st.attachments⟩,
        attachments := st.attachments }
  else st

/-- Claim C9 (confirmed): with reporting enabled and a non-empty test key
not yet recorded, two calls to `add_jira_status` for that key merge into a
single recorded entry whose status is `Pass` exactly when both calls
reported `Pass` (hence `Fail` when either reported `Fail`), and whose
comment, when both calls carry non-empty comments, is the first comment, a
newline, then the second. -/
theorem claim_C9 :
    ∀ (st : JiraState) (k s1 s2 : String) (c1 c2 : Option String),
      k ≠ ("") →
      getKey st.tests k = Option.none →
      (s1 = ("Pass") ∨ s1 = ("Fail")) →
      (s2 = ("Pass") ∨ s2 = ("Fail")) →
      ∃ entry,
        getKey (addJiraStatus true (addJiraStatus true st k s1 c1) k s2 c2).tests k
          = some entry ∧
        countKey (addJiraStatus true (addJiraStatus true st k s1 c1) k s2 c2).tests k
          = 1 ∧
        (entry.status = ("Pass") ↔ (s1 = ("Pass") ∧ s2 = ("Pass"))) ∧
        ((s1 = ("Fail") ∨ s2 = ("Fail")) → entry.status = ("Fail")) ∧
        (∀ a b, c1 = some a → a ≠ ("") → c2 = some b → b ≠ ("") →
          entry.comment = some (a ++ ("\n") ++ b)) := by
  intro st k s1 s2 c1 c2 hk hnone hs1 hs2
  have hkb : (k != ("")) = true := by simpa using hk
  have hst1 : addJiraStatus true st k s1 c1
      = { tests := setKey st.tests k ⟨k, s1, c1, st.attachments⟩,
          attachments := st.attachments } := by
    simp [addJiraStatus, hkb, hnone]
  have hget1 : getKey (addJiraStatus true st k s1 c1).tests k
      = some ⟨k, s1, c1, st.attachments⟩ := by
    rw [hst1]
    exact getKey_setKey_self _ _ _
  have hst12 : addJiraStatus true (addJiraStatus true st k s1 c1) k s2 c2
      = { tests := setKey (setKey st.tests k ⟨k, s1, c1, st.attachments⟩) k
            ⟨k, (if s1 = ("Pass") ∧ s2 = ("Pass") then ("Pass") else ("Fail")),
              (if truthyOptStr c1 && truthyOptStr c2 then
                some ((c1.getD ("")) ++ ("\n") ++ (c2.getD ("")))
              else if truthyOptStr c1 && !truthyOptStr c2 then c1 else c2),
              st.attachments ++ st.attachments⟩,
          attachments := st.attachments ++ st.attachments } := by
    rw [hst1]
    simp [addJiraStatus, hkb, getKey_setKey_self]
  refine ⟨_, by rw [hst12]; exact getKey_setKey_self _ _ _, ?_, ?_, ?_, ?_⟩
  · rw [hst12]
    have h0 : countKey st.tests k = 0 := countKey_eq_zero_of_getKey_none _ _ hnone
    have h1 : countKey (setKey st.tests k
        (⟨k, s1, c1, st.attachments⟩ : JiraTestStatus)) k = 1 := by
      rw [countKey_setKey_absent _ _ _ hnone, h0]
    exact countKey_setKey_present _ _ _ h1
  · by_cases hb : s1 = ("Pass") ∧ s2 = ("Pass") <;> simp [hb]
  · intro hf
    have hb : ¬(s1 = ("Pass") ∧ s2 = ("Pass")) := by
      rcases hf with h | h <;> subst h <;> simp
    simp [hb]
  · intro a b ha ha2 hb hb2
    subst ha
    subst hb
    have ta : truthyOptStr (some a) = true := by simpa [truthyOptStr] using ha2
    have tb : truthyOptStr (some b) = true := by simpa [truthyOptStr] using hb2
    simp [ta, tb]

/-- Witness for claim C9: a `Pass` then `Fail` pair of calls for the key
`TOOLIUM-1` with comments `first` and `second`. -/
theorem claim_C9_witness :
    ∃ entry,
      getKey (addJiraStatus true
          (addJiraStatus true ⟨[], []⟩ ("TOOLIUM-1") ("Pass") (some ("first")))
          ("TOOLIUM-1") ("Fail") (some ("second"))).tests ("TOOLIUM-1")
        = some entry ∧
      countKey (addJiraStatus true
          (addJiraStatus true ⟨[], []⟩ ("TOOLIUM-1") ("Pass") (some ("first")))
          ("TOOLIUM-1") ("Fail") (some ("second"))).tests ("TOOLIUM-1") = 1 ∧
      (entry.status = ("Pass") ↔ (("Pass") = ("Pass") ∧ ("Fail") = ("Pass"))) ∧
      ((("Pass") = ("Fail") ∨ ("Fail") = ("Fail")) → entry.status = ("Fail")) ∧
      (∀ a b, (some ("first") : Option String) = some a → a ≠ ("") →
        (some ("second") : Option String) = some b → b ≠ ("") →
        entry.comment = some (a ++ ("\n") ++ b)) :=
  claim_C9 ⟨[], []⟩ ("TOOLIUM-1") ("Pass") ("Fail") (some ("first"))
    (some ("second")) (by decide) rfl (Or.inl rfl) (Or.inr rfl)

/-! ### Jira reporting: status upload -/

/-- Python exceptions relevant to the reporting flow: tracker errors
(`JIRAError`), validation errors (`ValueError`) and anything else. -/
inductive PyExc where
  | jiraError (msg : String)
  | valueError (msg : String)
  | otherError (msg : String)
deriving Repr, DecidableEq

/-- Python truthiness of a modelled value. -/
def pyTruthy : PValue → Bool
  | .none => false
  | .bool b => b
  | .int n => n != 0
  | .str s => s != ("")
  | .list l => !l.isEmpty
  | .dict d => !d.isEmpty

mutual

/-- Python `==` on modelled values: booleans compare numerically with
integers, strings by content, lists elementwise, dicts by keys and values;
values of different shapes otherwise compare unequal. -/
def pyEq : PValue → PValue → Bool
  | .none, .none => true
  | .bool a, .bool b => a == b
  | .bool a, .int n => (if a then (1 : Int) else 0) == n
  | .int n, .bool a => n == (if a then (1 : Int) else 0)
  | .int a, .int b => a == b
  | .str a, .str b => a == b
  | .list a, .list b => pyEqList a b
  | .dict a, .dict b => a.length == b.length && pyEqEntries a b
  | _, _ => false
termination_by v _ => sizeOf v

/-- Elementwise Python `==` on lists. -/
def pyEqList : List PValue → List PValue → Bool
  | [], [] => true
  | x :: xs, y :: ys => pyEq x y && pyEqList xs ys
  | _, _ => false
termination_by l _ => sizeOf l

/-- Every entry of the first dict matches the second by key and value. -/
def pyEqEntries : List (String × PValue) → List (String × PValue) → Bool
  | [], _ => true
  | (k, v) :: rest, b =>
    (match getKey b k with
     | some w => pyEq v w
     | Option.none => false) && pyEqEntries rest b
termination_by d _ => sizeOf d

end

/-- Python `str()` of a value as interpolated into the error messages of
`check_jira_args` (scalars only are reached there; container rendering is
abbreviated in the model, `\x7b` and `\x7d` are curly braces). -/
def pyStr : PValue → String
  | .none => ("None")
  | .bool b => if b then ("True") else ("False")
  | .int n => toString n
  | .str s => s
  | .list _ => ("[...]")
  | .dict _ => ("\x7b...\x7d")

/-- `check_jira_args` (`jira.py` lines 174-216), modelled over the data the
Jira server returns: `projects` holds the `(name, key, id)` raw fields of
`server.projects()`, collected as 3-element lists in `available_keys`;
`resolveOutcome` stands for the `server.project(...)` id/key resolution
calls; `fixVersions` holds the raw names of
`server.project_versions(project_name)`. The membership test
`project_option not in available_keys` compares the scalar `project_option`
against 3-element lists with Python `==`, and a failed check raises
`ValueError` (the quote characters of the original messages are omitted). -/
def checkJiraArgs (projects : List (String × String × String))
    (projectId projectKey projectName : PValue)
    (resolveOutcome : Except PyExc Unit)
    (fixVersions : List String) (fixVersion : PValue) : Except PyExc Unit :=
  let availableKeys : List PValue := projects.map
    (fun p => .list [.str p.1, .str p.2.1, .str p.2.2])
  let projectOption : PValue :=
    if pyTruthy projectId then projectId
    else if pyTruthy projectKey then projectKey
    else projectName
  if !(availableKeys.any (fun a => pyEq projectOption a)) then
    .error (.valueError (("No existe el proyecto ") ++ pyStr projectOption))
  else
    match resolveOutcome with
    | .error e => .error e
    | .ok _ =>
      if !(fixVersions.any (fun v => pyEq fixVersion (.str v))) then
        .error (.valueError (("No existe la fix version ") ++ pyStr fixVersion))
      else .ok ()

/-- The body of the `try` block of `change_jira_status`
(`jira.py` lines 240-266): connect to the server (`JiraServer.__enter__`),
run `check_jira_args`, then the query / execution-creation / transition /
attachment steps, whose outcome is the parameter `rest` (their tracker
failures surface as `JIRAError`; `transition` and `add_results` catch their
own exceptions internally). -/
def jiraUpdateBody (connect : Except PyExc Unit)
    (projects : List (String × String × String))
    (projectId projectKey projectName : PValue)
    (resolveOutcome : Except PyExc Unit)
    (fixVersions : List String) (fixVersion : PValue)
    (rest : Except PyExc Unit) : Except PyExc Unit :=
  match connect with
  | .error e => .error e
  | .ok _ =>
    match checkJiraArgs projects projectId projectKey projectName
        resolveOutcome fixVersions fixVersion with
    | .error e => .error e
    | .ok _ => rest

/-- `change_jira_status` (`jira.py` lines 219-270): a falsy `execution_url`
returns early with a warning; the `try` body runs the update; the `except
JIRAError` clause catches exactly `JIRAError`, logs it and returns normally,
so any other exception propagates to the caller. -/
def changeJiraStatus (executionUrl : Option String)
    (connect : Except PyExc Unit)
    (projects : List (String × String × String))
    (projectId projectKey projectName : PValue)
    (resolveOutcome : Except PyExc Unit)
    (fixVersions : List String) (fixVersion : PValue)
    (rest : Except PyExc Unit) : Except PyExc Unit :=
  if !truthyOptStr executionUrl then .ok ()
  else
    match jiraUpdateBody connect projects projectId projectKey projectName
        resolveOutcome fixVersions fixVersion rest with
    | .ok _ => .ok ()
    | .error (.jiraError _) => .ok ()
    | .error e => .error e

/-- Claim C10, counterexample: with a configured execution URL, a healthy
connection and a project list `[("Proj", "PRJ", "10000")]` returned by the
tracker, the validation in `check_jira_args` raises `ValueError`
(`project_option` is compared against 3-element lists, so the membership
test fails) and `change_jira_status` propagates it to the caller instead of
returning normally. -/
theorem claim_C10_counterexample :
    changeJiraStatus (some ("http://jira.example/execution")) (.ok ())
        [(("Proj"), ("PRJ"), ("10000"))] (.int 0) (.int 0) (.str ("Proj"))
        (.ok ()) [("1.0")] (.str ("1.0")) (.ok ())
      = .error (.valueError (("No existe el proyecto ") ++ ("Proj"))) := by
  simp [changeJiraStatus, truthyOptStr, jiraUpdateBody, checkJiraArgs, pyEq,
    pyTruthy, pyStr]

/-- Claim C10 as amended: with a configured execution URL, a failure raised
as `JIRAError` anywhere in the update body is caught and swallowed by
`change_jira_status`, which returns normally (as it does on success and on a
falsy execution URL); but a failure raised as `ValueError` or any other
non-`JIRAError` exception — in particular the validation errors of
`check_jira_args` — propagates to the caller. -/
theorem claim_C10_amended :
    ∀ (executionUrl : Option String) (connect : Except PyExc Unit)
      (projects : List (String × String × String))
      (projectId projectKey projectName : PValue)
      (resolveOutcome : Except PyExc Unit)
      (fixVersions : List String) (fixVersion : PValue)
      (rest : Except PyExc Unit),
      (∀ m, jiraUpdateBody connect projects projectId projectKey projectName
          resolveOutcome fixVersions fixVersion rest = .error (.jiraError m) →
        changeJiraStatus executionUrl connect projects projectId projectKey
          projectName resolveOutcome fixVersions fixVersion rest = .ok ()) ∧
      (jiraUpdateBody connect projects projectId projectKey projectName
          resolveOutcome fixVersions fixVersion rest = .ok () →
        changeJiraStatus executionUrl connect projects projectId projectKey
          projectName resolveOutcome fixVersions fixVersion rest = .ok ()) ∧
      (truthyOptStr executionUrl = false →
        changeJiraStatus executionUrl connect projects projectId projectKey
          projectName resolveOutcome fixVersions fixVersion rest = .ok ()) ∧
      (∀ m, truthyOptStr executionUrl = true →
        jiraUpdateBody connect projects projectId projectKey projectName
          resolveOutcome fixVersions fixVersion rest = .error (.valueError m) →
        changeJiraStatus executionUrl connect projects projectId projectKey
          projectName resolveOutcome fixVersions fixVersion rest
          = .error (.valueError m)) := by
  intro executionUrl connect projects projectId projectKey projectName
    resolveOutcome fixVersions fixVersion rest
  refine ⟨?_, ?_, ?_, ?_⟩
  · intro m h
    cases hu : truthyOptStr executionUrl <;> simp [changeJiraStatus, hu, h]
  · intro h
    cases hu : truthyOptStr executionUrl <;> simp [changeJiraStatus, hu, h]
  · intro hu
    simp [changeJiraStatus, hu]
  · intro m hu h
    simp [changeJiraStatus, hu, h]

/-- Witness for the amended claim C10: a connection failing with
`JIRAError 503` is swallowed; a validation `ValueError` with the same server
data propagates. -/
theorem claim_C10_witness :
    changeJiraStatus (some ("http://jira.example/execution"))
        (.error (.jiraError ("503"))) [] (.int 0) (.int 0) (.str ("Proj"))
        (.ok ()) [] (.str ("1.0")) (.ok ())
      = .ok () ∧
    changeJiraStatus (some ("http://jira.example/execution")) (.ok ())
        [] (.int 0) (.int 0) (.str ("P2")) (.ok ()) [] (.str ("1.0")) (.ok ())
      = .error (.valueError (("No existe el proyecto ") ++ ("P2"))) :=
  ⟨(claim_C10_amended (some ("http://jira.example/execution"))
      (.error (.jiraError ("503"))) [] (.int 0) (.int 0) (.str ("Proj"))
      (.ok ()) [] (.str ("1.0")) (.ok ())).1 ("503") rfl,
   (claim_C10_amended (some ("http://jira.example/execution")) (.ok ())
      [] (.int 0) (.int 0) (.str ("P2")) (.ok ()) [] (.str ("1.0"))
      (.ok ())).2.2.2 (("No existe el proyecto ") ++ ("P2")) rfl rfl⟩

end Toolium
